import Mathlib

/-
Shallow embedding of the ghd backend core (src/src-tauri/src/db.rs and
src/src-tauri/src/gh.rs): the local persistence layer (SQLite schema and
handle lifecycle) and the token/session reconciliation layer
(get_token, set_token, get_user, get_pulls, whoami).

Remote HTTP endpoints and the SQLite engine are environments; they are
modelled as explicit oracle parameters (the identity endpoint reply, the
pull-request fetcher) and explicit fault selectors (which storage step
fails, if any).  The SQL statements in the source are small and fixed, so
their semantics is embedded directly as pure functions on a table state.
-/

namespace Ghd

/-- Error taxonomy of `GHDError` (crate `errors`), with exactly the variants
referenced from gh.rs: `TokenNotFoundError`, `BadTokenError`, `UnknownError`,
`UserNotSetError`. -/
inductive GHDError where
  | TokenNotFoundError
  | BadTokenError
  | UnknownError
  | UserNotSetError
deriving DecidableEq, Repr

/-- Result of running a fallible Rust function that can also `panic!`:
`ok` for `Ok`, `err` for `Err(GHDError)`, `panicked` for a process abort. -/
inductive Outcome (α : Type) where
  | ok : α → Outcome α
  | err : GHDError → Outcome α
  | panicked : String → Outcome α
deriving DecidableEq, Repr

abbrev Token := String

/-- JSON body of the remote identity endpoint (`GithubUserReply` in
gh/types.rs, not under src/). Modelled from the spec: a JSON object with at
least `login`, `id`, `avatar_url`, `name`. -/
structure GithubUserReply where
  login : String
  id : Int
  avatar_url : String
  name : String
deriving DecidableEq, Repr

/-- The user profile row (`GithubUser`): fields as constructed in
`Github::whoami` and as selected by `Github::get_user` from the `users`
table (id, login, avatar_url, name). -/
structure GithubUser where
  login : String
  id : Int
  avatar_url : String
  name : String
deriving DecidableEq, Repr

/-- One row of the `tokens` table:
`id INTEGER PRIMARY KEY AUTOINCREMENT NOT NULL, token TEXT NOT NULL,
user_id INTEGER, UNIQUE(token, user_id)`. -/
structure TokenRow where
  id : Nat
  token : String
  user_id : Option Int
deriving DecidableEq, Repr

/-- The part of the database state the session layer touches: the `users`
and `tokens` tables, plus the AUTOINCREMENT counter for `tokens.id`
(SQLite AUTOINCREMENT hands out strictly increasing ids, never reusing
one). -/
structure DBState where
  users : List GithubUser
  tokens : List TokenRow
  nextTokenId : Nat
deriving DecidableEq, Repr

/-- Freshly created database: both tables empty, AUTOINCREMENT starts at 1. -/
def emptyDB : DBState := { users := [], tokens := [], nextTokenId := 1 }

/-- Semantics of `SELECT ... FROM tokens WHERE id = (SELECT MAX(id) FROM
tokens)`: the row with the maximum `id`, or none when the table is empty
(`id` is a primary key, so ids are unique and the maximum row is unique). -/
def maxTokenRow : List TokenRow → Option TokenRow
  | [] => none
  | r :: rest =>
    match maxTokenRow rest with
    | none => some r
    | some m => if r.id < m.id then some m else some r

/-- Failures a `sqlx` fetch can produce: `rowNotFound` when the query
returns no rows, plus storage/connection-level failures. -/
inductive SqlxError where
  | rowNotFound
  | database (code : Nat)
  | poolClosed
  | decode (msg : String)
deriving DecidableEq, Repr

/-- Core of `Github::get_token` (gh.rs lines 51-72), as a function of the
`fetch_one` result. The fetched row's `try_get("token")` result is the
inner `Except String String`. Faithful to the source match: a successful
row read returns the token column, a failing column read panics, and ANY
fetch error is mapped to `TokenNotFoundError`. -/
def get_token_core (val : Except SqlxError (Except String String)) :
    Outcome String :=
  match val with
  | .ok res =>
    match res with
    | .ok tok => .ok tok
    | .error e => .panicked ("Unable to obtain token column: " ++ e)
  | .error _ => .err GHDError.TokenNotFoundError

/-- The `fetch_one` of `Github::get_token` against a healthy store: the
max-id row when one exists, `rowNotFound` on an empty table. -/
def fetch_max_token (s : DBState) : Except SqlxError TokenRow :=
  match maxTokenRow s.tokens with
  | some r => .ok r
  | none => .error .rowNotFound

/-- `Github::get_token` run against a healthy store state: the fetched
row's `token` column is TEXT NOT NULL, so `try_get` succeeds on it. -/
def get_token (s : DBState) : Outcome String :=
  get_token_core ((fetch_max_token s).map (fun r => Except.ok r.token))

/-- `Github::whoami` (gh.rs lines 34-49): sends GET /user with the token
(the send oracle models `GithubRequest::send`, returning either the JSON
reply or an HTTP status code; per the spec, a network-layer failure
surfaces as a non-success status) and repacks the reply fields into a
`GithubUser`. No side effects on local state. -/
def whoami (send : Token → Except Nat GithubUserReply) (token : Token) :
    Except Nat GithubUser :=
  match send token with
  | .ok res =>
    .ok { login := res.login, id := res.id, avatar_url := res.avatar_url,
          name := res.name }
  | .error e => .error e

/-- `reqwest::StatusCode::FORBIDDEN`. -/
def FORBIDDEN : Nat := 403

/-- Rows of `users` that conflict with inserting `u`: `id` is the primary
key and `login` is UNIQUE, so `INSERT OR REPLACE` deletes any row agreeing
with `u` on either column before inserting. -/
def usersConflict (u r : GithubUser) : Bool :=
  r.id == u.id || r.login == u.login

/-- Semantics of `INSERT OR REPLACE INTO users (id, login, name,
avatar_url) VALUES (?, ?, ?, ?)`: delete every conflicting row, insert the
new full row (an overwrite of all columns, not a merge). -/
def upsertUser (u : GithubUser) (users : List GithubUser) :
    List GithubUser :=
  u :: users.filter (fun r => !(usersConflict u r))

/-- Rows of `tokens` that conflict with inserting `(tok, uid)` under
`UNIQUE(token, user_id)`: SQL NULLs are pairwise distinct, so a row only
conflicts when both `user_id`s are non-NULL and equal. -/
def tokensConflict (tok : String) (uid : Option Int) (r : TokenRow) :
    Bool :=
  r.token == tok &&
    (match r.user_id, uid with
     | some a, some b => a == b
     | _, _ => false)

/-- Semantics of `INSERT OR REPLACE INTO tokens (token, user_id) VALUES
(?, ?)`: delete any row with the same `(token, user_id)` pair, insert a
new row with the next AUTOINCREMENT id. -/
def insertToken (tok : String) (uid : Option Int) (s : DBState) : DBState :=
  { s with
    tokens :=
      { id := s.nextTokenId, token := tok, user_id := uid } ::
        s.tokens.filter (fun r => !(tokensConflict tok uid r)),
    nextTokenId := s.nextTokenId + 1 }

/-- The committed effect of `Github::set_token`'s transaction: upsert the
user profile, then insert the token row bound to that user's id. -/
def applySetToken (user : GithubUser) (tok : Token) (s : DBState) :
    DBState :=
  insertToken tok (some user.id) { s with users := upsertUser user s.users }

/-- Which storage step of `Github::set_token`'s transaction fails, if any:
`begin`, the user insert, the token insert, or the final `commit`. -/
inductive StoreFault where
  | healthy
  | beginFail
  | userInsertFail
  | tokenInsertFail
  | commitFail
deriving DecidableEq, Repr

/-- `Github::set_token` (gh.rs lines 74-134): validate the token via
`whoami`; a FORBIDDEN status maps to `BadTokenError` and anything else to
`UnknownError`, with no local write. On success, run one transaction with
both writes; every storage failure panics before or at commit, so the
durable state is either fully updated (`applySetToken`) or untouched. -/
def set_token (send : Token → Except Nat GithubUserReply)
    (fault : StoreFault) (s : DBState) (tok : Token) :
    DBState × Outcome Unit :=
  match whoami send tok with
  | .error status =>
    (s, .err (if status = FORBIDDEN then GHDError.BadTokenError
              else GHDError.UnknownError))
  | .ok user =>
    match fault with
    | .healthy => (applySetToken user tok s, .ok ())
    | .beginFail => (s, .panicked "Error starting transaction to set token")
    | .userInsertFail => (s, .panicked "Error inserting user into database")
    | .tokenInsertFail =>
      (s, .panicked "Error inserting token into database")
    | .commitFail =>
      (s, .panicked "Unable to commit transaction to set token")

/-- Semantics of the `Github::get_user` query: `SELECT id, name, login,
avatar_url FROM users WHERE id = (SELECT user_id FROM tokens WHERE id =
(SELECT MAX(id) FROM tokens))`. An empty `tokens` table makes the scalar
subquery NULL, a NULL `user_id` matches no `users.id`, and a dangling
`user_id` finds no row: all three give `rowNotFound`. -/
def sel_current_user (s : DBState) : Except SqlxError GithubUser :=
  match maxTokenRow s.tokens with
  | none => .error .rowNotFound
  | some t =>
    match t.user_id with
    | none => .error .rowNotFound
    | some uid =>
      match s.users.find? (fun u => u.id == uid) with
      | some u => .ok u
      | none => .error .rowNotFound

/-- `Github::get_user` (gh.rs lines 136-164): any fetch error becomes
`UserNotSetError`. -/
def get_user (s : DBState) : Outcome GithubUser :=
  match sel_current_user s with
  | .ok res => .ok res
  | .error _ => .err GHDError.UserNotSetError

/-- One pull-request summary (`PullRequestEntry` in gh/prs.rs, not under
src/). Modelled from the spec: a summary record keyed by remote id; its
remaining fields are irrelevant to the claims, which concern only whose
pull requests are fetched. -/
structure PullRequestEntry where
  id : Int
deriving DecidableEq, Repr

/-- `Github::get_pulls` (gh.rs lines 166-172): the fetch oracle models
`prs::get(token, &user)`. The source binds `user` to the literal string
"jecluis" before calling it. -/
def get_pulls
    (fetch : Token → String → Except Nat (List PullRequestEntry))
    (token : Token) : Except Nat (List PullRequestEntry) :=
  fetch token "jecluis"

/-- The `DB` handle of db.rs: a uri plus the optional live pool (the pool
itself is modelled as an opaque numeric handle). -/
structure DB where
  uri : String
  pool : Option Nat
deriving DecidableEq, Repr

/-- `DB::new` (db.rs lines 23-27): formats the sqlite uri and leaves the
pool unset. Pure construction, no I/O, total. -/
def DB.new (path : String) : DB :=
  { uri := "sqlite://" ++ path, pool := none }

/-- `DB::connect` (db.rs lines 29-38): panics when already connected;
otherwise opens the pool (the argument models the `SqlitePool::connect`
result) and panics when that fails. -/
def DB.connect (d : DB) (connectResult : Except Nat Nat) : Outcome DB :=
  match d.pool with
  | some _ => .panicked "Attempting to connect to connected database!"
  | none =>
    match connectResult with
    | .ok p => .ok { d with pool := some p }
    | .error _ => .panicked "Unable to open database!"

/-- `DB::pool` (db.rs lines 55-62): returns the live pool, panicking when
`connect` has not succeeded. -/
def DB.poolFn (d : DB) : Outcome Nat :=
  match d.pool with
  | some p => .ok p
  | none => .panicked "Attempting to obtain pool for unconnected database!"

/-- The filesystem-level world `DB::setup` acts on: whether the database
file exists, whether the schema batch of `create_db_schema` has been fully
applied, and the stored table data. -/
structure SqliteWorld where
  dbExists : Bool
  schemaApplied : Bool
  store : DBState
deriving DecidableEq, Repr

/-- Which step of the first-run branch of `DB::setup` fails, if any:
`Sqlite::create_database` or the `create_db_schema` statement batch. -/
inductive SetupFault where
  | healthy
  | createFail
  | schemaFail
deriving DecidableEq, Repr

/-- `DB::setup` (db.rs lines 40-53): when the database file already
exists, do nothing and return the handle; otherwise create the file and
apply the schema batch, panicking if either step fails (a failed schema
batch leaves a created file without the full schema). Returns `self`
unchanged in every non-panicking path. -/
def DB.setup (d : DB) (w : SqliteWorld) (fault : SetupFault) :
    (DB × SqliteWorld) × Outcome Unit :=
  if w.dbExists then ((d, w), .ok ())
  else
    match fault with
    | .healthy =>
      ((d, { dbExists := true, schemaApplied := true, store := emptyDB }),
        .ok ())
    | .createFail => ((d, w), .panicked "Unable to open database file")
    | .schemaFail =>
      ((d, { dbExists := true, schemaApplied := false, store := emptyDB }),
        .panicked "Error creating database schema")

/-- Well-formedness the AUTOINCREMENT discipline maintains: every stored
token id is below the counter, so a fresh insert always has the strictly
largest id. -/
def WF (s : DBState) : Prop :=
  ∀ r ∈ s.tokens, r.id < s.nextTokenId

instance (s : DBState) : Decidable (WF s) := by
  unfold WF; infer_instance

/-- Runs a sequence of committed `set_token` transactions, given for each
call the token and the user profile its `whoami` returned. -/
def runSetTokens (calls : List (Token × GithubUser)) (s : DBState) :
    DBState :=
  calls.foldl (fun st c => applySetToken c.2 c.1 st) s

/-! Helper lemmas about the embedded SQL semantics. -/

theorem maxTokenRow_eq_none :
    ∀ {l : List TokenRow}, maxTokenRow l = none → l = [] := by
  intro l h
  cases l with
  | nil => rfl
  | cons r rest =>
    simp only [maxTokenRow] at h
    split at h
    · cases h
    · split at h <;> cases h

theorem maxTokenRow_mem :
    ∀ {l : List TokenRow} {m : TokenRow}, maxTokenRow l = some m → m ∈ l := by
  intro l
  induction l with
  | nil => intro m h; simp [maxTokenRow] at h
  | cons r rest ih =>
    intro m h
    simp only [maxTokenRow] at h
    split at h
    next => cases h; exact List.mem_cons_self r rest
    next m2 hm =>
      by_cases hlt : r.id < m2.id
      · rw [if_pos hlt] at h; cases h
        exact List.mem_cons_of_mem r (ih hm)
      · rw [if_neg hlt] at h; cases h
        exact List.mem_cons_self r rest

theorem maxTokenRow_eq_head {r : TokenRow} {rest : List TokenRow}
    (h : ∀ x ∈ rest, x.id < r.id) : maxTokenRow (r :: rest) = some r := by
  simp only [maxTokenRow]
  split
  next => rfl
  next m hm =>
    have hlt : m.id < r.id := h m (maxTokenRow_mem hm)
    rw [if_neg (Nat.not_lt.mpr (Nat.le_of_lt hlt))]

theorem maxTokenRow_ub :
    ∀ {l : List TokenRow} {m : TokenRow}, maxTokenRow l = some m →
      ∀ x ∈ l, x.id ≤ m.id := by
  intro l
  induction l with
  | nil => intro m h; simp [maxTokenRow] at h
  | cons r rest ih =>
    intro m h x hx
    simp only [maxTokenRow] at h
    split at h
    next hm =>
      cases h
      have hnil : rest = [] := maxTokenRow_eq_none hm
      subst hnil
      rcases List.mem_cons.mp hx with rfl | hx2
      · exact Nat.le_refl _
      · cases hx2
    next m2 hm =>
      by_cases hlt : r.id < m2.id
      · rw [if_pos hlt] at h; cases h
        rcases List.mem_cons.mp hx with rfl | hx2
        · exact Nat.le_of_lt hlt
        · exact ih hm x hx2
      · rw [if_neg hlt] at h; cases h
        rcases List.mem_cons.mp hx with rfl | hx2
        · exact Nat.le_refl _
        · exact Nat.le_trans (ih hm x hx2) (Nat.not_lt.mp hlt)

theorem maxTokenRow_isSome {l : List TokenRow} (h : l ≠ []) :
    ∃ m, maxTokenRow l = some m := by
  cases l with
  | nil => exact absurd rfl h
  | cons r rest =>
    simp only [maxTokenRow]
    cases maxTokenRow rest with
    | none => exact ⟨r, rfl⟩
    | some m => by_cases hlt : r.id < m.id
                · exact ⟨m, if_pos hlt⟩
                · exact ⟨r, if_neg hlt⟩

theorem applySetToken_tokens (u : GithubUser) (t : Token) (s : DBState) :
    (applySetToken u t s).tokens =
      { id := s.nextTokenId, token := t, user_id := some u.id } ::
        s.tokens.filter (fun r => !(tokensConflict t (some u.id) r)) := rfl

theorem applySetToken_nextId (u : GithubUser) (t : Token) (s : DBState) :
    (applySetToken u t s).nextTokenId = s.nextTokenId + 1 := rfl

theorem applySetToken_users (u : GithubUser) (t : Token) (s : DBState) :
    (applySetToken u t s).users = upsertUser u s.users := rfl

theorem WF_applySetToken {s : DBState} (h : WF s) (u : GithubUser)
    (t : Token) : WF (applySetToken u t s) := by
  intro r hr
  rw [applySetToken_tokens] at hr
  rw [applySetToken_nextId]
  rcases List.mem_cons.mp hr with rfl | hr2
  · exact Nat.lt_succ_self _
  · exact Nat.lt_succ_of_lt (h r (List.mem_of_mem_filter hr2))

theorem maxTokenRow_after (u : GithubUser) (t : Token) (s : DBState)
    (h : WF s) :
    maxTokenRow (applySetToken u t s).tokens =
      some { id := s.nextTokenId, token := t, user_id := some u.id } := by
  rw [applySetToken_tokens]
  exact maxTokenRow_eq_head (fun x hx => h x (List.mem_of_mem_filter hx))

theorem get_token_applySetToken (u : GithubUser) (t : Token) (s : DBState)
    (h : WF s) : get_token (applySetToken u t s) = .ok t := by
  simp [get_token, fetch_max_token, maxTokenRow_after u t s h, Except.map,
    get_token_core]

theorem get_user_applySetToken (u : GithubUser) (t : Token) (s : DBState)
    (h : WF s) : get_user (applySetToken u t s) = .ok u := by
  unfold get_user sel_current_user
  rw [maxTokenRow_after u t s h]
  simp [applySetToken_users, upsertUser]

theorem upsertUser_filter_id (u : GithubUser) (l : List GithubUser) :
    (upsertUser u l).filter (fun r => r.id == u.id) = [u] := by
  have h2 : (l.filter (fun r => !(usersConflict u r))).filter
      (fun r => r.id == u.id) = [] := by
    rw [List.filter_eq_nil_iff]
    intro a ha
    have hc := List.of_mem_filter ha
    simp [usersConflict] at hc ⊢
    exact hc.1
  simp [upsertUser, List.filter_cons, h2]

theorem upsertUser_find (u : GithubUser) (l : List GithubUser) :
    (upsertUser u l).find? (fun r => r.id == u.id) = some u := by
  unfold upsertUser
  exact List.find?_cons_of_pos _ (by simp)

theorem runSetTokens_append (c1 c2 : List (Token × GithubUser))
    (s : DBState) :
    runSetTokens (c1 ++ c2) s = runSetTokens c2 (runSetTokens c1 s) := by
  simp [runSetTokens, List.foldl_append]

theorem runSetTokens_last (calls : List (Token × GithubUser))
    (h : calls ≠ []) (s : DBState) :
    runSetTokens calls s =
      applySetToken (calls.getLast h).2 (calls.getLast h).1
        (runSetTokens calls.dropLast s) := by
  conv_lhs => rw [← List.dropLast_append_getLast h]
  rw [runSetTokens_append]
  simp [runSetTokens]

theorem runSetTokens_users (X : Int) (calls : List (Token × GithubUser))
    (s : DBState) (h1 : calls ≠ []) (h2 : ∀ c ∈ calls, c.2.id = X) :
    ((runSetTokens calls s).users.filter (fun r => r.id == X)).length = 1 ∧
    (runSetTokens calls s).users.find? (fun r => r.id == X) =
      some (calls.getLast h1).2 := by
  rw [runSetTokens_last calls h1 s]
  have hid : (calls.getLast h1).2.id = X := h2 _ (List.getLast_mem h1)
  rw [applySetToken_users]
  rw [← hid]
  constructor
  · rw [upsertUser_filter_id]; rfl
  · exact upsertUser_find _ _

theorem set_token_ok_state (send : Token → Except Nat GithubUserReply)
    (fault : StoreFault) (s : DBState) (tok : Token) (u : GithubUser)
    (hid : whoami send tok = .ok u)
    (hok : (set_token send fault s tok).2 = .ok ()) :
    (set_token send fault s tok).1 = applySetToken u tok s := by
  simp only [set_token, hid] at hok ⊢
  cases fault <;> simp_all

/-! Claim theorems. -/

/-- C1: for every token the identity endpoint accepts, after a successful
SetActiveToken the active token read back is that token, and GetCurrentUser
returns exactly the profile (id, login, name, avatar_url) that Identify
returned for it. -/
theorem set_token_roundtrip (send : Token → Except Nat GithubUserReply)
    (fault : StoreFault) (s : DBState) (tok : Token) (u : GithubUser)
    (hWF : WF s) (hid : whoami send tok = .ok u)
    (hok : (set_token send fault s tok).2 = .ok ()) :
    get_token (set_token send fault s tok).1 = .ok tok ∧
    get_user (set_token send fault s tok).1 = .ok u := by
  rw [set_token_ok_state send fault s tok u hid hok]
  exact ⟨get_token_applySetToken u tok s hWF,
    get_user_applySetToken u tok s hWF⟩

/-- Identity-endpoint oracle accepting every token with a fixed profile. -/
def octoReply : GithubUserReply :=
  { login := "octo", id := 42, avatar_url := "https://avatars.example/42",
    name := "Octo Cat" }

/-- The profile `whoami` builds from `octoReply`. -/
def octoUser : GithubUser :=
  { login := "octo", id := 42, avatar_url := "https://avatars.example/42",
    name := "Octo Cat" }

/-- Oracle returning `octoReply` for every token. -/
def octoSend : Token → Except Nat GithubUserReply := fun _ => .ok octoReply

/-- Witness for C1 at the spec's example token. -/
theorem set_token_roundtrip_witness :
    get_token (set_token octoSend .healthy emptyDB "abc123").1 =
      .ok "abc123" ∧
    get_user (set_token octoSend .healthy emptyDB "abc123").1 =
      .ok octoUser :=
  set_token_roundtrip octoSend .healthy emptyDB "abc123" octoUser
    (by decide) rfl rfl

/-- C2: after two successful SetActiveToken calls with tokens T1 then T2
(same or different user), GetActiveToken returns T2; and GetActiveToken is
exactly maximum-id row selection on the tokens table. -/
theorem active_token_last_write (send : Token → Except Nat GithubUserReply)
    (f1 f2 : StoreFault) (s : DBState) (t1 t2 : Token)
    (u1 u2 : GithubUser) (hWF : WF s)
    (h1 : whoami send t1 = .ok u1) (h2 : whoami send t2 = .ok u2)
    (hok1 : (set_token send f1 s t1).2 = .ok ())
    (hok2 : (set_token send f2 (set_token send f1 s t1).1 t2).2 = .ok ()) :
    get_token (set_token send f2 (set_token send f1 s t1).1 t2).1 =
      .ok t2 ∧
    ∀ st : DBState, get_token st =
      match maxTokenRow st.tokens with
      | some r => Outcome.ok r.token
      | none => Outcome.err GHDError.TokenNotFoundError := by
  constructor
  · rw [set_token_ok_state send f1 s t1 u1 h1 hok1] at hok2 ⊢
    rw [set_token_ok_state send f2 _ t2 u2 h2 hok2]
    exact get_token_applySetToken u2 t2 _ (WF_applySetToken hWF u1 t1)
  · intro st
    unfold get_token fetch_max_token
    cases maxTokenRow st.tokens <;> simp [get_token_core, Except.map]

/-- A second identity oracle, for the second call in the C2 witness: a
different user profile under a different token. -/
def hubotReply : GithubUserReply :=
  { login := "hubot", id := 99, avatar_url := "https://avatars.example/99",
    name := "Hubot" }

/-- The profile `whoami` builds from `hubotReply`. -/
def hubotUser : GithubUser :=
  { login := "hubot", id := 99, avatar_url := "https://avatars.example/99",
    name := "Hubot" }

/-- Oracle returning `octoReply` for token "T1" and `hubotReply`
otherwise. -/
def twoUserSend : Token → Except Nat GithubUserReply :=
  fun t => if t = "T1" then .ok octoReply else .ok hubotReply

/-- Witness for C2: two concrete successful calls, different users. -/
theorem active_token_last_write_witness :
    get_token
        (set_token twoUserSend .healthy
          (set_token twoUserSend .healthy emptyDB "T1").1 "T2").1 =
      .ok "T2" ∧
    ∀ st : DBState, get_token st =
      match maxTokenRow st.tokens with
      | some r => Outcome.ok r.token
      | none => Outcome.err GHDError.TokenNotFoundError :=
  active_token_last_write twoUserSend .healthy .healthy emptyDB "T1" "T2"
    octoUser hubotUser (by decide) rfl rfl rfl rfl

/-- C3: a token the identity endpoint rejects makes SetActiveToken return
BadCredential when the rejection is FORBIDDEN and UnknownError otherwise,
with the store untouched; and on an accepted token every storage fault
leaves the store untouched (panic before a commit), so the transaction's
two writes land together or not at all. -/
theorem set_token_reject_atomic (send : Token → Except Nat GithubUserReply)
    (fault : StoreFault) (s : DBState) (tok : Token) :
    (∀ status, send tok = .error status →
      set_token send fault s tok =
        (s, .err (if status = FORBIDDEN then GHDError.BadTokenError
                  else GHDError.UnknownError))) ∧
    (∀ u, whoami send tok = .ok u →
      set_token send fault s tok = (applySetToken u tok s, .ok ()) ∨
      ∃ msg, set_token send fault s tok = (s, .panicked msg)) := by
  constructor
  · intro status hs
    have hw : whoami send tok = .error status := by simp [whoami, hs]
    simp [set_token, hw]
  · intro u hu
    simp only [set_token, hu]
    cases fault
    · exact .inl rfl
    · exact .inr ⟨_, rfl⟩
    · exact .inr ⟨_, rfl⟩
    · exact .inr ⟨_, rfl⟩
    · exact .inr ⟨_, rfl⟩

/-- Identity oracle rejecting every token with HTTP 403. -/
def forbiddenSend : Token → Except Nat GithubUserReply := fun _ => .error 403

/-- Identity oracle failing every token with HTTP 500 (also the shape of a
network-layer failure surfaced as a non-success status). -/
def serverErrSend : Token → Except Nat GithubUserReply := fun _ => .error 500

/-- Witness for C3: a forbidden token, a server error, and a storage fault
on an accepted token, all at concrete inputs. -/
theorem set_token_reject_atomic_witness :
    set_token forbiddenSend .healthy emptyDB "badtok" =
      (emptyDB, .err GHDError.BadTokenError) ∧
    set_token serverErrSend .healthy emptyDB "sometok" =
      (emptyDB, .err GHDError.UnknownError) ∧
    (set_token octoSend .commitFail emptyDB "abc123" =
        (applySetToken octoUser "abc123" emptyDB, .ok ()) ∨
      ∃ msg, set_token octoSend .commitFail emptyDB "abc123" =
        (emptyDB, .panicked msg)) := by
  refine ⟨?_, ?_, ?_⟩
  · have h :=
      (set_token_reject_atomic forbiddenSend .healthy emptyDB "badtok").1
        403 rfl
    simpa [FORBIDDEN] using h
  · have h :=
      (set_token_reject_atomic serverErrSend .healthy emptyDB "sometok").1
        500 rfl
    simpa [FORBIDDEN] using h
  · exact (set_token_reject_atomic octoSend .commitFail emptyDB "abc123").2
      octoUser rfl

/-- C4: GetActiveToken on an empty tokens table returns the
TokenNotFoundError value (no panic), and on a nonempty table returns the
token column of the row whose id is maximal. -/
theorem get_token_empty_or_max (s : DBState) :
    (s.tokens = [] → get_token s = .err GHDError.TokenNotFoundError) ∧
    (s.tokens ≠ [] → ∃ r, r ∈ s.tokens ∧ (∀ x ∈ s.tokens, x.id ≤ r.id) ∧
      maxTokenRow s.tokens = some r ∧ get_token s = .ok r.token) := by
  constructor
  · intro h
    simp [get_token, fetch_max_token, h, maxTokenRow, Except.map,
      get_token_core]
  · intro h
    obtain ⟨m, hm⟩ := maxTokenRow_isSome h
    exact ⟨m, maxTokenRow_mem hm, maxTokenRow_ub hm, hm, by
      simp [get_token, fetch_max_token, hm, Except.map, get_token_core]⟩

/-- A store with two token rows, max id 2. -/
def twoTokenDB : DBState :=
  { users := [],
    tokens := [{ id := 1, token := "t1", user_id := none },
      { id := 2, token := "t2", user_id := some 7 }],
    nextTokenId := 3 }

/-- Witness for C4 at the empty store and a concrete two-row store. -/
theorem get_token_empty_or_max_witness :
    get_token emptyDB = .err GHDError.TokenNotFoundError ∧
    ∃ r, r ∈ twoTokenDB.tokens ∧ (∀ x ∈ twoTokenDB.tokens, x.id ≤ r.id) ∧
      maxTokenRow twoTokenDB.tokens = some r ∧
      get_token twoTokenDB = .ok r.token :=
  ⟨(get_token_empty_or_max emptyDB).1 rfl,
   (get_token_empty_or_max twoTokenDB).2 (by decide)⟩

/-- C5: GetCurrentUser returns the UserNotSetError value whenever the
tokens table is empty, or the max-id token row has a NULL user_id, or its
user_id references no users row; an orphaned token never resolves to a
user. -/
theorem get_user_unlinked (s : DBState) :
    (s.tokens = [] → get_user s = .err GHDError.UserNotSetError) ∧
    (∀ r, maxTokenRow s.tokens = some r → r.user_id = none →
      get_user s = .err GHDError.UserNotSetError) ∧
    (∀ r uid, maxTokenRow s.tokens = some r → r.user_id = some uid →
      (∀ u ∈ s.users, u.id ≠ uid) →
      get_user s = .err GHDError.UserNotSetError) := by
  refine ⟨?_, ?_, ?_⟩
  · intro h
    simp [get_user, sel_current_user, h, maxTokenRow]
  · intro r hr hnone
    simp [get_user, sel_current_user, hr, hnone]
  · intro r uid hr huid hnouser
    have hfind : s.users.find? (fun u => u.id == uid) = none := by
      rw [List.find?_eq_none]
      intro u hu
      simp [hnouser u hu]
    simp [get_user, sel_current_user, hr, huid, hfind]

/-- A store whose max-id token row has a NULL user_id. -/
def orphanTokenDB : DBState :=
  { users := [octoUser],
    tokens := [{ id := 1, token := "t1", user_id := some 42 },
      { id := 2, token := "t2", user_id := none }],
    nextTokenId := 3 }

/-- A store whose max-id token row references a missing users row. -/
def danglingTokenDB : DBState :=
  { users := [octoUser],
    tokens := [{ id := 5, token := "t5", user_id := some 1000 }],
    nextTokenId := 6 }

/-- Witness for C5 at the empty store, an orphaned token, and a dangling
token reference. -/
theorem get_user_unlinked_witness :
    get_user emptyDB = .err GHDError.UserNotSetError ∧
    get_user orphanTokenDB = .err GHDError.UserNotSetError ∧
    get_user danglingTokenDB = .err GHDError.UserNotSetError :=
  ⟨(get_user_unlinked emptyDB).1 rfl,
   (get_user_unlinked orphanTokenDB).2.1
     { id := 2, token := "t2", user_id := none } (by decide) rfl,
   (get_user_unlinked danglingTokenDB).2.2
     { id := 5, token := "t5", user_id := some 1000 } 1000 (by decide) rfl
     (by decide)⟩

/-- C6: any nonempty sequence of committed SetActiveToken calls whose
identity results all carry user id X leaves exactly one users row with id
X, holding the full profile of the latest call (overwrite, not merge), and
after every nonempty prefix of the sequence that row count is still
exactly one (the row is replaced, never deleted). -/
theorem user_upsert_unique (X : Int) (calls : List (Token × GithubUser))
    (h1 : calls ≠ []) (h2 : ∀ c ∈ calls, c.2.id = X) :
    ((runSetTokens calls emptyDB).users.filter
        (fun r => r.id == X)).length = 1 ∧
    (runSetTokens calls emptyDB).users.find? (fun r => r.id == X) =
      some (calls.getLast h1).2 ∧
    ∀ p rest, calls = p ++ rest → p ≠ [] →
      ((runSetTokens p emptyDB).users.filter
          (fun r => r.id == X)).length = 1 := by
  refine ⟨(runSetTokens_users X calls emptyDB h1 h2).1,
    (runSetTokens_users X calls emptyDB h1 h2).2, ?_⟩
  intro p rest hsplit hp
  have hsub : ∀ c ∈ p, c.2.id = X := fun c hc =>
    h2 c (hsplit ▸ List.mem_append_left rest hc)
  exact (runSetTokens_users X p emptyDB hp hsub).1

/-- A second profile with the same remote id as `octoUser` but different
login, name and avatar. -/
def octoUserV2 : GithubUser :=
  { login := "octo2", id := 42, avatar_url := "https://avatars.example/42b",
    name := "Octo Cat II" }

/-- Witness for C6: the same user id upserted twice with different
profile fields. -/
theorem user_upsert_unique_witness :
    ((runSetTokens [("t1", octoUser), ("t2", octoUserV2)] emptyDB).users.filter
        (fun r => r.id == 42)).length = 1 ∧
    (runSetTokens [("t1", octoUser), ("t2", octoUserV2)] emptyDB).users.find?
        (fun r => r.id == 42) = some octoUserV2 ∧
    ∀ p rest, [("t1", octoUser), ("t2", octoUserV2)] = p ++ rest → p ≠ [] →
      ((runSetTokens p emptyDB).users.filter
          (fun r => r.id == 42)).length = 1 :=
  user_upsert_unique 42 [("t1", octoUser), ("t2", octoUserV2)]
    (by decide) (by decide)

/-- C7: after any successful run of `DB::setup`, a second run on the
resulting world performs no writes, cannot fail (whatever fault the
environment would inject), and returns handle and world unchanged; and
when the database file already exists, `DB::setup` itself changes
nothing. -/
theorem setup_idempotent (d : DB) (w : SqliteWorld) (f1 f2 : SetupFault)
    (hok : (DB.setup d w f1).2 = .ok ()) :
    DB.setup (DB.setup d w f1).1.1 (DB.setup d w f1).1.2 f2 =
      ((DB.setup d w f1).1, .ok ()) ∧
    (w.dbExists = true → DB.setup d w f1 = ((d, w), .ok ())) := by
  unfold DB.setup at hok ⊢
  by_cases h : w.dbExists
  · simp [h]
  · simp only [h, Bool.false_eq_true, if_false] at hok ⊢
    cases f1 with
    | healthy => simp
    | createFail => simp at hok
    | schemaFail => simp at hok

/-- A path on which no database file exists yet. -/
def freshWorld : SqliteWorld :=
  { dbExists := false, schemaApplied := false, store := emptyDB }

/-- Witness for C7: a successful first run on a fresh path, then a second
run (even one whose schema batch would fail if reached) that is a no-op. -/
theorem setup_idempotent_witness :
    DB.setup (DB.setup (DB.new "ghd.db") freshWorld .healthy).1.1
        (DB.setup (DB.new "ghd.db") freshWorld .healthy).1.2 .schemaFail =
      ((DB.setup (DB.new "ghd.db") freshWorld .healthy).1, .ok ()) ∧
    (freshWorld.dbExists = true →
      DB.setup (DB.new "ghd.db") freshWorld .healthy =
        ((DB.new "ghd.db", freshWorld), .ok ())) :=
  setup_idempotent (DB.new "ghd.db") freshWorld .healthy .schemaFail rfl

/-- C8: `get_pulls` passes the fixed literal handle "jecluis" to the
pull-request listing call for every token, so the listing is never scoped
to the identity the token authenticates; concretely, a token whose
identity is "octo" still produces a request for "jecluis". -/
theorem get_pulls_fixed_handle :
    (∀ (fetch : Token → String → Except Nat (List PullRequestEntry))
      (t : Token), get_pulls fetch t = fetch t "jecluis") ∧
    get_pulls (fun _ login => .error (if login = "octo" then 1 else 2))
        "abc123" = .error 2 :=
  ⟨fun _ _ => rfl, rfl⟩

/-- C9: `DB::connect` on an already-connected handle panics rather than
reconnecting or returning a handle, `DB::pool` on an unconnected handle
panics rather than returning a handle, and `DB::new` is a pure total
constructor (no I/O, never fails). -/
theorem db_lifecycle_guards :
    (∀ (d : DB) (p : Nat) (cr : Except Nat Nat), d.pool = some p →
      DB.connect d cr =
        .panicked "Attempting to connect to connected database!") ∧
    (∀ d : DB, d.pool = none →
      DB.poolFn d =
        .panicked "Attempting to obtain pool for unconnected database!") ∧
    (∀ path, DB.new path = { uri := "sqlite://" ++ path, pool := none }) := by
  refine ⟨?_, ?_, fun _ => rfl⟩
  · intro d p cr h
    simp [DB.connect, h]
  · intro d h
    simp [DB.poolFn, h]

/-- Witness for C9 at concrete handles. -/
theorem db_lifecycle_guards_witness :
    DB.connect { uri := "sqlite://ghd.db", pool := some 1 } (.ok 2) =
      .panicked "Attempting to connect to connected database!" ∧
    DB.poolFn (DB.new "ghd.db") =
      .panicked "Attempting to obtain pool for unconnected database!" :=
  ⟨db_lifecycle_guards.1 { uri := "sqlite://ghd.db", pool := some 1 } 1
      (.ok 2) rfl,
   db_lifecycle_guards.2.1 (DB.new "ghd.db") rfl⟩

/-- C10: every fetch failure in `Github::get_token` — row-not-found,
storage and connection errors alike — is collapsed to the single value
TokenNotFoundError; the only other non-success path is a panic when the
token column cannot be read; and the store-level `get_token` is exactly
this logic applied to the max-id row fetch. -/
theorem get_token_error_collapse :
    (∀ e : SqlxError,
      get_token_core (.error e) = .err GHDError.TokenNotFoundError) ∧
    (∀ msg, get_token_core (.ok (.error msg)) =
      .panicked ("Unable to obtain token column: " ++ msg)) ∧
    (∀ tok, get_token_core (.ok (.ok tok)) = .ok tok) ∧
    (∀ s : DBState, get_token s =
      get_token_core ((fetch_max_token s).map (fun r => Except.ok r.token))) :=
  ⟨fun _ => rfl, fun _ => rfl, fun _ => rfl, fun _ => rfl⟩

end Ghd
